import Mathlib

/-
  Verification of the go-apicurio-sdk request-execution and error-mapping
  layer.  Each definition is a shallow embedding of the corresponding Go
  function; machine integers are modelled as Int, byte strings as String
  (a list of runes), and fallible code returns Except.
-/

namespace ApicurioSDK

/-- A JSON value, modelling the documents handled by the Go standard
library package encoding/json for the payloads this SDK exchanges.
Numbers are modelled as integers, which covers every numeric field the
SDK decodes (HTTP status codes and registry identifiers). -/
inductive JsonValue where
  | null
  | bool (b : Bool)
  | num (n : Int)
  | str (s : String)
  | arr (elems : List JsonValue)
  | obj (fields : List (String × JsonValue))

/-- Whitespace as accepted between JSON tokens. -/
def isWs (c : Char) : Bool :=
  c = ' ' || c = '\t' || c = '\n' || c = '\r'

/-- Drop leading JSON whitespace. -/
def skipWs : List Char → List Char
  | [] => []
  | c :: cs => if isWs c then skipWs cs else c :: cs

/-- Parse the remainder of a JSON string literal (the opening quote has
already been consumed), handling the common escape sequences.  Escapes
this model does not support are treated as a parse failure. -/
def parseStrAux (acc : List Char) : List Char → Option (String × List Char)
  | [] => none
  | '"' :: cs => some (String.mk acc.reverse, cs)
  | '\\' :: e :: cs =>
    if e = '"' then parseStrAux ('"' :: acc) cs
    else if e = '\\' then parseStrAux ('\\' :: acc) cs
    else if e = '/' then parseStrAux ('/' :: acc) cs
    else if e = 'n' then parseStrAux ('\n' :: acc) cs
    else if e = 't' then parseStrAux ('\t' :: acc) cs
    else if e = 'r' then parseStrAux ('\r' :: acc) cs
    else none
  | '\\' :: [] => none
  | c :: cs => parseStrAux (c :: acc) cs

/-- Consume a run of decimal digits, accumulating their value. -/
def takeDigits (acc : Nat) : List Char → Nat × List Char
  | [] => (acc, [])
  | c :: cs =>
    if c.isDigit then takeDigits (acc * 10 + (c.toNat - 48)) cs
    else (acc, c :: cs)

/-- After an integer literal, a fraction or exponent marker is not
supported by this model and is treated as a parse failure. -/
def numTailOk : List Char → Bool
  | [] => true
  | c :: _ => ¬(c = '.' || c = 'e' || c = 'E')

mutual

/-- Parse one JSON value.  The fuel argument bounds nesting depth; the
top-level entry point supplies more fuel than any input can consume. -/
def parseVal : Nat → List Char → Option (JsonValue × List Char)
  | 0, _ => none
  | Nat.succ fuel, cs =>
    match skipWs cs with
    | 'n' :: 'u' :: 'l' :: 'l' :: rest => some (.null, rest)
    | 't' :: 'r' :: 'u' :: 'e' :: rest => some (.bool true, rest)
    | 'f' :: 'a' :: 'l' :: 's' :: 'e' :: rest => some (.bool false, rest)
    | '"' :: rest =>
      match parseStrAux [] rest with
      | some (s, r2) => some (.str s, r2)
      | none => none
    | '\x7b' :: rest =>
      match skipWs rest with
      | '\x7d' :: r2 => some (.obj [], r2)
      | r2 => parseMembers fuel r2 []
    | '[' :: rest =>
      match skipWs rest with
      | ']' :: r2 => some (.arr [], r2)
      | r2 => parseElems fuel r2 []
    | '-' :: c :: rest =>
      if c.isDigit then
        match takeDigits (c.toNat - 48) rest with
        | (n, r2) => if numTailOk r2 then some (.num (-(Int.ofNat n)), r2) else none
      else none
    | c :: rest =>
      if c.isDigit then
        match takeDigits (c.toNat - 48) rest with
        | (n, r2) => if numTailOk r2 then some (.num (Int.ofNat n), r2) else none
      else none
    | [] => none

/-- Parse the members of a JSON object after the opening brace, when the
object is known to be non-empty. -/
def parseMembers : Nat → List Char → List (String × JsonValue) →
    Option (JsonValue × List Char)
  | 0, _, _ => none
  | Nat.succ fuel, cs, acc =>
    match skipWs cs with
    | '"' :: rest =>
      match parseStrAux [] rest with
      | none => none
      | some (key, r2) =>
        match skipWs r2 with
        | ':' :: r3 =>
          match parseVal fuel r3 with
          | none => none
          | some (v, r4) =>
            match skipWs r4 with
            | ',' :: r5 => parseMembers fuel r5 (acc ++ [(key, v)])
            | '\x7d' :: r5 => some (.obj (acc ++ [(key, v)]), r5)
            | _ => none
        | _ => none
    | _ => none

/-- Parse the elements of a JSON array after the opening bracket, when
the array is known to be non-empty. -/
def parseElems : Nat → List Char → List JsonValue →
    Option (JsonValue × List Char)
  | 0, _, _ => none
  | Nat.succ fuel, cs, acc =>
    match parseVal fuel cs with
    | none => none
    | some (v, r2) =>
      match skipWs r2 with
      | ',' :: r3 => parseElems fuel r3 (acc ++ [v])
      | ']' :: r3 => some (.arr (acc ++ [v]), r3)
      | _ => none

end

/-- Parse a complete JSON document: a single value followed only by
whitespace, as required by json.Unmarshal. -/
def jsonParse (s : String) : Option JsonValue :=
  match parseVal (s.length + 1) s.data with
  | some (v, rest) => if skipWs rest = [] then some v else none
  | none => none

/-- APIError mirrors the problem-details error envelope from
models/api_error.go: detail, type, title, status, instance, name, with
json tags of the same (lowercased) names.  The Go field Instance is
rendered here as instanceURI because instance is a Lean keyword. -/
structure APIError where
  detail : String := ""
  typeURI : String := ""
  title : String := ""
  status : Int := 0
  instanceURI : String := ""
  name : String := ""
deriving DecidableEq

/-- One step of json.Unmarshal into the APIError struct: apply a single
object member.  A member whose json tag matches a struct field must hold
a value of the field type (or null, which leaves the field untouched);
unknown members are ignored; later duplicates overwrite earlier ones. -/
def applyAPIErrorField (e : APIError) : String × JsonValue → Option APIError
  | ("detail", .str s) => some { e with detail := s }
  | ("detail", .null) => some e
  | ("detail", _) => none
  | ("type", .str s) => some { e with typeURI := s }
  | ("type", .null) => some e
  | ("type", _) => none
  | ("title", .str s) => some { e with title := s }
  | ("title", .null) => some e
  | ("title", _) => none
  | ("status", .num n) => some { e with status := n }
  | ("status", .null) => some e
  | ("status", _) => none
  | ("instance", .str s) => some { e with instanceURI := s }
  | ("instance", .null) => some e
  | ("instance", _) => none
  | ("name", .str s) => some { e with name := s }
  | ("name", .null) => some e
  | ("name", _) => none
  | (_, _) => some e

/-- json.Unmarshal of a parsed document into the APIError struct: the
top level must be an object (or null, which leaves the zero value); each
member is applied in order; absent fields keep their zero values. -/
def decodeAPIError : JsonValue → Option APIError
  | .obj fields => fields.foldlM applyAPIErrorField {}
  | .null => some {}
  | _ => none

/-- parseAPIError from apis/helpers.go: read the whole error response
body and unmarshal it as an APIError.  The body is modelled as the
string already carried by the response, so the io.ReadAll failure path
has no counterpart; both parse and decode failures yield the error
message used by the Go code. -/
def parseAPIError (body : String) : Except String APIError :=
  match jsonParse body with
  | none => .error "failed to parse error response"
  | some j =>
    match decodeAPIError j with
    | none => .error "failed to parse error response"
    | some e => .ok e

/-- An HTTP response as seen by the interpreter: status code, headers,
and the full body the server sent. -/
structure HttpResponse where
  statusCode : Int
  headers : List (String × String)
  body : String
deriving DecidableEq

/-- The state of a response body stream when the interpreter returns:
what portion of the body is still unread, and whether Close ran. -/
structure BodyState where
  remaining : String
  closed : Bool
deriving DecidableEq

/-- The error outcomes of the SDK core, one constructor per distinct
failure kind produced by the Go code.  Constructor disjointness models
the fact that the Go code never merges these outcomes. -/
inductive SdkError where
  | invalidInput (fieldName input : String)
  | apiError (e : APIError)
  | unexpectedServer (wrapped : String)
  | parseBody (wrapped : String)
  | invalidArtifactTypeHeader (headerValue : String)
  | marshalBody (wrapped : String)
deriving DecidableEq

/-- handleResponse from apis/helpers.go.  The Go function is generic in
the dynamic type of its result pointer; that genericity is embedded as
an optional decoder (result = nil becomes none).  json.Decoder.Decode
stops reading at the end of the first JSON value or at the first error,
leaving an unspecified suffix of the body unread, and the source never
drains the body afterwards; the decoder model therefore reports, along
with its outcome, the suffix it leaves unconsumed, and the returned
BodyState takes exactly that leftover on the decode branches.  The
deferred Close is recorded on every path. -/
def handleResponse {α : Type} (resp : HttpResponse) (expectedStatus : Int)
    (result : Option (String → Except String α × String)) :
    Except SdkError (Option α) × BodyState :=
  if resp.statusCode ≠ expectedStatus then
    match parseAPIError resp.body with
    | .error m => (.error (.unexpectedServer m), { remaining := "", closed := true })
    | .ok e => (.error (.apiError e), { remaining := "", closed := true })
  else
    match result with
    | some dec =>
      match dec resp.body with
      | (.error m, rest) => (.error (.parseBody m), { remaining := rest, closed := true })
      | (.ok v, rest) => (.ok (some v), { remaining := rest, closed := true })
    | none => (.ok none, { remaining := resp.body, closed := true })

/-- handleRawResponse from apis/helpers.go: same error path as
handleResponse; on the expected status it reads and returns the whole
body as text. -/
def handleRawResponse (resp : HttpResponse) (expectedStatus : Int) :
    Except SdkError String × BodyState :=
  if resp.statusCode ≠ expectedStatus then
    match parseAPIError resp.body with
    | .error m => (.error (.unexpectedServer m), { remaining := "", closed := true })
    | .ok e => (.error (.apiError e), { remaining := "", closed := true })
  else
    (.ok resp.body, { remaining := "", closed := true })

/-- Model of the Go regexp regexGroupIDArtifactID from apis/helpers.go,
whose pattern is anchored: caret, dot in braces 1 to 512, dollar.  In Go
regexp semantics the dot matches any rune except newline, the caret the
start of text and the dollar the end of text, so MatchString holds
exactly when the string is 1 to 512 runes long and newline-free. -/
def regexGroupIDArtifactID (s : String) : Bool :=
  decide (1 ≤ s.data.length) && decide (s.data.length ≤ 512) &&
    s.data.all (fun c => c ≠ '\n')

/-- The character class of the version-expression pattern: lowercase and
uppercase ASCII letters, digits, dot, underscore, hyphen, plus. -/
def isVersionChar (c : Char) : Bool :=
  c.isAlpha || c.isDigit || c = '.' || c = '_' || c = '-' || c = '+'

/-- Model of the Go regexp regexVersion from apis/helpers.go.  Its
pattern is the class in brackets repeated 1 to 256 times with NO anchors,
so MatchString holds exactly when some substring of 1 to 256 class
characters occurs, i.e. exactly when the string contains at least one
character of the class. -/
def regexVersion (s : String) : Bool :=
  s.data.any isVersionChar

/-- validateInput from apis/helpers.go: if the regexp does not match the
input, wrap ErrInvalidInput with the field name and the input. -/
def validateInput (input : String) (regex : String → Bool) (fieldName : String) :
    Except SdkError Unit :=
  if regex input then .ok () else .error (.invalidInput fieldName input)

/-- ArtifactType from models/general.go is a string type. -/
abbrev ArtifactType := String

def Avro : ArtifactType := "AVRO"

def Protobuf : ArtifactType := "PROTOBUF"

def Json : ArtifactType := "JSON"

def KConnect : ArtifactType := "KCONNECT"

def OpenAPI : ArtifactType := "OPENAPI"

def AsyncAPI : ArtifactType := "ASYNCAPI"

def GraphQL : ArtifactType := "GRAPHQL"

def WSDL : ArtifactType := "WSDL"

def XSD : ArtifactType := "XSD"

/-- The sentinel ErrUnknownArtifactType, modelled by its message. -/
def ErrUnknownArtifactType : String := "unknown artifact type"

/-- ParseArtifactType from models/general.go: a switch over the nine
supported artifact type constants; the default branch returns the empty
artifact type together with ErrUnknownArtifactType.  Go returns the pair
of a value and an optional error, embedded here verbatim. -/
def ParseArtifactType (artifactType : String) : ArtifactType × Option String :=
  if artifactType = Avro then (Avro, none)
  else if artifactType = Protobuf then (Protobuf, none)
  else if artifactType = Json then (Json, none)
  else if artifactType = KConnect then (KConnect, none)
  else if artifactType = OpenAPI then (OpenAPI, none)
  else if artifactType = AsyncAPI then (AsyncAPI, none)
  else if artifactType = GraphQL then (GraphQL, none)
  else if artifactType = WSDL then (WSDL, none)
  else if artifactType = XSD then (XSD, none)
  else ("", some ErrUnknownArtifactType)

/-- http.Header.Get: the value stored for a key, or the empty string
when the key is absent. -/
def headerGet : List (String × String) → String → String
  | [], _ => ""
  | p :: rest, k => if p.1 = k then p.2 else headerGet rest k

/-- http.Header.Set: replace any existing value for the key with the
single given value.  Go stores headers in a map, so only the Get view
matters; this list representation puts the new entry first and drops the
old ones, which yields identical Get behaviour. -/
def headerSet (hs : List (String × String)) (k v : String) :
    List (String × String) :=
  (k, v) :: hs.filter (fun p => p.1 ≠ k)

/-- parseArtifactTypeHeader from apis/helpers.go: read the
X-Registry-ArtifactType response header and parse it into the closed
artifact-type enumeration; a parse failure is wrapped into a local
invalid-artifact-type error naming the offending header value. -/
def parseArtifactTypeHeader (resp : HttpResponse) : Except SdkError ArtifactType :=
  let artifactTypeHeader := headerGet resp.headers "X-Registry-ArtifactType"
  match ParseArtifactType artifactTypeHeader with
  | (t, none) => .ok t
  | (_, some _) => .error (.invalidArtifactTypeHeader artifactTypeHeader)

def ContentTypeJSON : String := "application/json"

def ContentTypeAll : String := "*/*"

/-- The body argument of executeRequest is a Go interface value.  The
type switch distinguishes string and byte-slice bodies; every other
value (including nil, which json.Marshal renders as the four characters
of null) takes the default branch and is JSON-encoded.  Arbitrary Go
values cannot be embedded, so the default branch is abstracted by the
outcome of json.Marshal on the value: either its rendered text or its
error message. -/
inductive RequestBody where
  | nil
  | str (s : String)
  | bytes (b : String)
  | jsonOk (marshaled : String)
  | jsonFail (msg : String)
deriving DecidableEq

/-- Whether the Go interface value was nil (the body is absent). -/
def RequestBody.isNilBody : RequestBody → Bool
  | .nil => true
  | _ => false

/-- An HTTP request as built by the SDK. -/
structure HttpRequest where
  method : String
  url : String
  headers : List (String × String)
  body : String
deriving DecidableEq

/-- executeRequest from apis/versions.go: marshal the body according to
its dynamic type (raw string and byte-slice bodies pass through verbatim
with the wildcard content type, anything else is JSON-encoded with the
JSON content type, a marshalling failure being an immediate local error
with no request built), build the request, and set the computed
Content-Type header when the body is non-nil. -/
def executeRequest (method url : String) (body : RequestBody) :
    Except SdkError HttpRequest :=
  let marshalled : Except String (String × String) :=
    match body with
    | .str v => .ok (v, ContentTypeAll)
    | .bytes v => .ok (v, ContentTypeAll)
    | .nil => .ok ("null", ContentTypeJSON)
    | .jsonOk m => .ok (m, ContentTypeJSON)
    | .jsonFail msg => .error msg
  match marshalled with
  | .error msg => .error (.marshalBody msg)
  | .ok (reqBody, contentType) =>
    let req : HttpRequest := { method := method, url := url, headers := [], body := reqBody }
    if body.isNilBody then .ok req
    else .ok { req with headers := headerSet req.headers "Content-Type" contentType }

/-- Client from client/client.go: base URL and the optional static
authorization header value.  The injected HTTP transport is passed
separately as a function wherever a round trip is performed. -/
structure Client where
  baseURL : String
  authHeader : String := ""
deriving DecidableEq

/-- The header rewriting Client.Do performs before delegating to the
injected transport: attach the Authorization header exactly when the
static auth header value is non-empty, then set the Content-Type header
to application/json unconditionally. -/
def clientDispatch (c : Client) (req : HttpRequest) : HttpRequest :=
  let req1 :=
    if c.authHeader ≠ "" then
      { req with headers := headerSet req.headers "Authorization" c.authHeader }
    else req
  { req1 with headers := headerSet req1.headers "Content-Type" "application/json" }

/-- Client.Do from client/client.go: rewrite the headers and delegate to
the injected transport. -/
def clientDo (c : Client) (transport : HttpRequest → HttpResponse)
    (req : HttpRequest) : HttpResponse :=
  transport (clientDispatch c req)

/-- url.Values.Get on the query lists built below: the value stored for
a key, if any.  Keys are set at most once per ToQuery, so first-match
lookup coincides with the Go map semantics. -/
def qget (q : List (String × String)) (k : String) : Option String :=
  match q with
  | [] => none
  | p :: rest => if p.1 = k then some p.2 else qget rest k

/-- url.Values.Encode, for the single-valued unescaped-safe queries the
modelled operations build: join key=value pairs with ampersands. -/
def queryEncode (q : List (String × String)) : String :=
  String.intercalate "&" (q.map (fun p => p.1 ++ "=" ++ p.2))

/-- SearchArtifactsParams from models/params.go.  The Go enum-like
string types Order, OrderBy and ArtifactType are string types and are
modelled as String; Go int and int64 as Int. -/
structure SearchArtifactsParams where
  name : String := ""
  offset : Int := 0
  limit : Int := 0
  order : String := ""
  orderBy : String := ""
  labels : List String := []
  description : String := ""
  groupID : String := ""
  globalID : Int := 0
  contentID : Int := 0
  artifactID : String := ""
  artifactType : String := ""
deriving DecidableEq

/-- SearchArtifactsParams.ToQuery from models/params.go: each field
contributes its key when it differs from the zero value; numbers are
rendered with strconv, labels are comma-joined. -/
def SearchArtifactsParams.toQuery (p : SearchArtifactsParams) :
    List (String × String) :=
  (if p.name ≠ "" then [("name", p.name)] else [])
  ++ (if p.offset ≠ 0 then [("offset", toString p.offset)] else [])
  ++ (if p.limit ≠ 0 then [("limit", toString p.limit)] else [])
  ++ (if p.order ≠ "" then [("order", p.order)] else [])
  ++ (if p.orderBy ≠ "" then [("orderby", p.orderBy)] else [])
  ++ (if 0 < p.labels.length then [("labels", String.intercalate "," p.labels)] else [])
  ++ (if p.description ≠ "" then [("description", p.description)] else [])
  ++ (if p.groupID ≠ "" then [("groupId", p.groupID)] else [])
  ++ (if p.globalID ≠ 0 then [("globalId", toString p.globalID)] else [])
  ++ (if p.contentID ≠ 0 then [("contentId", toString p.contentID)] else [])
  ++ (if p.artifactID ≠ "" then [("artifactId", p.artifactID)] else [])
  ++ (if p.artifactType ≠ "" then [("artifactType", p.artifactType)] else [])

/-- SearchVersionByContentParams from models/params.go.  Canonical is a
bool pointer in Go, whose zero value is nil; it is modelled as an
optional Bool. -/
structure SearchVersionByContentParams where
  canonical : Option Bool := none
  artifactType : String := ""
  offset : Int := 0
  limit : Int := 0
  order : String := ""
  orderBy : String := ""
  groupID : String := ""
  artifactID : String := ""
deriving DecidableEq

/-- SearchVersionByContentParams.ToQuery from models/params.go: the
canonical key is emitted whenever the pointer is non-nil (rendered with
strconv.FormatBool), offset and limit only when strictly positive, the
string-typed fields when non-empty. -/
def SearchVersionByContentParams.toQuery (p : SearchVersionByContentParams) :
    List (String × String) :=
  (match p.canonical with
   | some b => [("canonical", if b then "true" else "false")]
   | none => [])
  ++ (if p.artifactType ≠ "" then [("artifactType", p.artifactType)] else [])
  ++ (if 0 < p.offset then [("offset", toString p.offset)] else [])
  ++ (if 0 < p.limit then [("limit", toString p.limit)] else [])
  ++ (if p.order ≠ "" then [("order", p.order)] else [])
  ++ (if p.orderBy ≠ "" then [("orderby", p.orderBy)] else [])
  ++ (if p.groupID ≠ "" then [("groupId", p.groupID)] else [])
  ++ (if p.artifactID ≠ "" then [("artifactId", p.artifactID)] else [])

/-- ArtifactReferenceParams from models/params.go; its single field is a
string-typed enum. -/
structure ArtifactReferenceParams where
  handleReferencesType : String := ""
deriving DecidableEq

/-- ArtifactReferenceParams.ToQuery from models/params.go. -/
def ArtifactReferenceParams.toQuery (p : ArtifactReferenceParams) :
    List (String × String) :=
  if p.handleReferencesType ≠ "" then [("references", p.handleReferencesType)] else []

/-- ArtifactContent from the models package: the raw textual content of
an artifact version paired with its artifact type. -/
structure ArtifactContent where
  content : String
  artifactType : ArtifactType
deriving DecidableEq

/-- DeleteArtifactVersion from apis/versions.go: validate the three
inputs (returning before any request is built when one fails), build the
URL, execute the request through Client.Do, and interpret the response
against 204 No Content with no result target.  The second component of
the result is the list of requests that reached the transport, so that
short-circuiting can be stated. -/
def DeleteArtifactVersion (c : Client) (transport : HttpRequest → HttpResponse)
    (groupID artifactID versionExpression : String) :
    Except SdkError Unit × List HttpRequest :=
  match validateInput groupID regexGroupIDArtifactID "Group ID" with
  | .error e => (.error e, [])
  | .ok _ =>
  match validateInput artifactID regexGroupIDArtifactID "Artifact ID" with
  | .error e => (.error e, [])
  | .ok _ =>
  match validateInput versionExpression regexVersion "Version Expression" with
  | .error e => (.error e, [])
  | .ok _ =>
    let url := c.baseURL ++ "/groups/" ++ groupID ++ "/artifacts/" ++ artifactID
      ++ "/versions/" ++ versionExpression
    match executeRequest "DELETE" url .nil with
    | .error e => (.error e, [])
    | .ok req =>
      let sent := clientDispatch c req
      let resp := transport sent
      match (handleResponse (α := Unit) resp 204 none).1 with
      | .error e => (.error e, [sent])
      | .ok _ => (.ok (), [sent])

/-- GetArtifactVersionContent from apis/versions.go: validate the three
inputs, build the content URL (with the optional references query),
execute the request, read the raw body against 200 OK, then parse the
X-Registry-ArtifactType header; the content is returned paired with the
parsed artifact type. -/
def GetArtifactVersionContent (c : Client) (transport : HttpRequest → HttpResponse)
    (groupID artifactID versionExpression : String)
    (params : Option ArtifactReferenceParams) :
    Except SdkError ArtifactContent :=
  match validateInput groupID regexGroupIDArtifactID "Group ID" with
  | .error e => .error e
  | .ok _ =>
  match validateInput artifactID regexGroupIDArtifactID "Artifact ID" with
  | .error e => .error e
  | .ok _ =>
  match validateInput versionExpression regexVersion "Version Expression" with
  | .error e => .error e
  | .ok _ =>
    let query :=
      match params with
      | none => ""
      | some ps => "?" ++ queryEncode ps.toQuery
    let url := c.baseURL ++ "/groups/" ++ groupID ++ "/artifacts/" ++ artifactID
      ++ "/versions/" ++ versionExpression ++ "/content" ++ query
    match executeRequest "GET" url .nil with
    | .error e => .error e
    | .ok req =>
      let resp := clientDo c transport req
      match (handleRawResponse resp 200).1 with
      | .error e => .error e
      | .ok content =>
        match parseArtifactTypeHeader resp with
        | .error e => .error e
        | .ok t => .ok { content := content, artifactType := t }

/-- The nine supported artifact types, in source order. -/
def artifactTypeValues : List String :=
  [Avro, Protobuf, Json, KConnect, OpenAPI, AsyncAPI, GraphQL, WSDL, XSD]

/-- A mock 500 response whose body is not valid JSON. -/
def mockResp500NotJson : HttpResponse :=
  { statusCode := 500, headers := [], body := "not json" }

/-- A mock 404 response carrying a problem-details envelope. -/
def mockResp404Envelope : HttpResponse :=
  { statusCode := 404, headers := [],
    body := "\x7b\"status\":404,\"title\":\"Not found\"\x7d" }

/-- The envelope decoded from the mock 404 body. -/
def mockAPIError404 : APIError := { title := "Not found", status := 404 }

/-- A mock 200 content response with a recognized artifact-type header. -/
def mockResp200Json : HttpResponse :=
  { statusCode := 200, headers := [("X-Registry-ArtifactType", "JSON")],
    body := "\x7b\"a\":\"1\"\x7d" }

/-- A mock 200 content response with an unrecognized artifact-type header. -/
def mockResp200Bogus : HttpResponse :=
  { statusCode := 200, headers := [("X-Registry-ArtifactType", "BOGUS")],
    body := "\x7b\"a\":\"1\"\x7d" }

/-- A mock client without an authorization header. -/
def mockClient : Client := { baseURL := "http://registry.local" }

/-- A mock client with a static authorization header. -/
def mockClientWithAuth : Client :=
  { baseURL := "http://registry.local", authHeader := "Bearer token-123" }

/-- A 513-character identifier, longer than the validation limit. -/
def longIdentifier : String := String.mk (List.replicate 513 'a')

end ApicurioSDK

deriving instance DecidableEq for Except

namespace ApicurioSDK

/-- Looking a key up in a concatenated query takes the first hit. -/
theorem qget_append (xs ys : List (String × String)) (k : String) :
    qget (xs ++ ys) k =
      match qget xs k with
      | some v => some v
      | none => qget ys k := by
  induction xs with
  | nil => simp [qget]
  | cons p rest ih =>
    by_cases h : p.1 = k
    · simp [qget, h]
    · simp [qget, h, ih]

/-- Looking a key up in a conditional singleton query segment. -/
theorem qget_ite (c : Prop) [Decidable c] (k1 v k2 : String) :
    qget (if c then [(k1, v)] else []) k2 =
      if k1 = k2 then (if c then some v else none) else none := by
  by_cases h : c <;> by_cases h2 : k1 = k2 <;> simp [qget, h, h2]

/-- Looking a key up in a conditional singleton query segment, with the
branches mirrored. -/
theorem qget_ite_neg (c : Prop) [Decidable c] (k1 v k2 : String) :
    qget (if c then [] else [(k1, v)]) k2 =
      if k1 = k2 then (if c then none else some v) else none := by
  by_cases h : c <;> by_cases h2 : k1 = k2 <;> simp [qget, h, h2]

/-- Setting a header makes it visible to Get. -/
theorem headerGet_headerSet_same (hs : List (String × String)) (k v : String) :
    headerGet (headerSet hs k v) k = v := by
  simp [headerGet, headerSet]

/-- Removing the entries of an unrelated key does not change Get. -/
theorem headerGet_filter_ne (hs : List (String × String)) (k k2 : String)
    (h : k2 ≠ k) :
    headerGet (hs.filter fun p => p.1 ≠ k) k2 = headerGet hs k2 := by
  induction hs with
  | nil => rfl
  | cons p t ih =>
    simp only [decide_not] at ih
    by_cases hp : p.1 = k
    · have hpne : p.1 ≠ k2 := by rw [hp]; exact Ne.symm h
      simp [List.filter_cons, hp, headerGet, hpne, Ne.symm h, ih]
    · by_cases hq : p.1 = k2 <;>
        simp [List.filter_cons, hp, headerGet, hq, h, ih]

/-- Setting one header does not change Get on another key. -/
theorem headerGet_headerSet_ne (hs : List (String × String)) (k v k2 : String)
    (h : k2 ≠ k) :
    headerGet (headerSet hs k v) k2 = headerGet hs k2 := by
  have hfe := headerGet_filter_ne hs k k2 h
  simp only [decide_not] at hfe
  simp [headerSet, headerGet, Ne.symm h, hfe]

end ApicurioSDK

namespace ApicurioSDK

set_option maxHeartbeats 3000000 in
/-- Full characterization of SearchArtifactsParams.toQuery: each key is
present exactly when its field is non-zero, carrying the rendered value. -/
theorem searchArtifactsToQuery_spec (p : SearchArtifactsParams) :
    qget p.toQuery "name" = (if p.name = "" then none else some p.name) ∧
    qget p.toQuery "offset" = (if p.offset = 0 then none else some (toString p.offset)) ∧
    qget p.toQuery "limit" = (if p.limit = 0 then none else some (toString p.limit)) ∧
    qget p.toQuery "order" = (if p.order = "" then none else some p.order) ∧
    qget p.toQuery "orderby" = (if p.orderBy = "" then none else some p.orderBy) ∧
    qget p.toQuery "labels" =
      (if p.labels = [] then none else some (String.intercalate "," p.labels)) ∧
    qget p.toQuery "description" =
      (if p.description = "" then none else some p.description) ∧
    qget p.toQuery "groupId" = (if p.groupID = "" then none else some p.groupID) ∧
    qget p.toQuery "globalId" =
      (if p.globalID = 0 then none else some (toString p.globalID)) ∧
    qget p.toQuery "contentId" =
      (if p.contentID = 0 then none else some (toString p.contentID)) ∧
    qget p.toQuery "artifactId" =
      (if p.artifactID = "" then none else some p.artifactID) ∧
    qget p.toQuery "artifactType" =
      (if p.artifactType = "" then none else some p.artifactType) := by
  refine ⟨?_, ?_, ?_, ?_, ?_, ?_, ?_, ?_, ?_, ?_, ?_, ?_⟩
  · by_cases h : p.name = "" <;>
      unfold SearchArtifactsParams.toQuery <;>
      simp [qget_append, qget_ite, qget_ite_neg, qget, h]
  · by_cases h : p.offset = 0 <;>
      unfold SearchArtifactsParams.toQuery <;>
      simp [qget_append, qget_ite, qget_ite_neg, qget, h]
  · by_cases h : p.limit = 0 <;>
      unfold SearchArtifactsParams.toQuery <;>
      simp [qget_append, qget_ite, qget_ite_neg, qget, h]
  · by_cases h : p.order = "" <;>
      unfold SearchArtifactsParams.toQuery <;>
      simp [qget_append, qget_ite, qget_ite_neg, qget, h]
  · by_cases h : p.orderBy = "" <;>
      unfold SearchArtifactsParams.toQuery <;>
      simp [qget_append, qget_ite, qget_ite_neg, qget, h]
  · by_cases h : p.labels = [] <;>
      unfold SearchArtifactsParams.toQuery <;>
      simp [qget_append, qget_ite, qget_ite_neg, qget, h, List.length_pos]
  · by_cases h : p.description = "" <;>
      unfold SearchArtifactsParams.toQuery <;>
      simp [qget_append, qget_ite, qget_ite_neg, qget, h]
  · by_cases h : p.groupID = "" <;>
      unfold SearchArtifactsParams.toQuery <;>
      simp [qget_append, qget_ite, qget_ite_neg, qget, h]
  · by_cases h : p.globalID = 0 <;>
      unfold SearchArtifactsParams.toQuery <;>
      simp [qget_append, qget_ite, qget_ite_neg, qget, h]
  · by_cases h : p.contentID = 0 <;>
      unfold SearchArtifactsParams.toQuery <;>
      simp [qget_append, qget_ite, qget_ite_neg, qget, h]
  · by_cases h : p.artifactID = "" <;>
      unfold SearchArtifactsParams.toQuery <;>
      simp [qget_append, qget_ite, qget_ite_neg, qget, h]
  · by_cases h : p.artifactType = "" <;>
      unfold SearchArtifactsParams.toQuery <;>
      simp [qget_append, qget_ite, qget_ite_neg, qget, h]

set_option maxHeartbeats 3000000 in
/-- Full characterization of SearchVersionByContentParams.toQuery: the
canonical key mirrors the bool pointer, offset and limit need strictly
positive values, the remaining fields need non-empty strings. -/
theorem searchVersionByContentToQuery_spec (p : SearchVersionByContentParams) :
    qget p.toQuery "canonical" =
      (match p.canonical with
       | some b => some (if b then "true" else "false")
       | none => none) ∧
    qget p.toQuery "artifactType" =
      (if p.artifactType = "" then none else some p.artifactType) ∧
    qget p.toQuery "offset" = (if 0 < p.offset then some (toString p.offset) else none) ∧
    qget p.toQuery "limit" = (if 0 < p.limit then some (toString p.limit) else none) ∧
    qget p.toQuery "order" = (if p.order = "" then none else some p.order) ∧
    qget p.toQuery "orderby" = (if p.orderBy = "" then none else some p.orderBy) ∧
    qget p.toQuery "groupId" = (if p.groupID = "" then none else some p.groupID) ∧
    qget p.toQuery "artifactId" =
      (if p.artifactID = "" then none else some p.artifactID) := by
  refine ⟨?_, ?_, ?_, ?_, ?_, ?_, ?_, ?_⟩
  · cases hc : p.canonical <;>
      unfold SearchVersionByContentParams.toQuery <;>
      simp [qget_append, qget_ite, qget_ite_neg, hc, qget]
  · cases hc : p.canonical <;> by_cases h : p.artifactType = "" <;>
      unfold SearchVersionByContentParams.toQuery <;>
      simp [qget_append, qget_ite, qget_ite_neg, hc, qget, h]
  · cases hc : p.canonical <;> by_cases h : 0 < p.offset <;>
      unfold SearchVersionByContentParams.toQuery <;>
      simp [qget_append, qget_ite, qget_ite_neg, hc, qget, h]
  · cases hc : p.canonical <;> by_cases h : 0 < p.limit <;>
      unfold SearchVersionByContentParams.toQuery <;>
      simp [qget_append, qget_ite, qget_ite_neg, hc, qget, h]
  · cases hc : p.canonical <;> by_cases h : p.order = "" <;>
      unfold SearchVersionByContentParams.toQuery <;>
      simp [qget_append, qget_ite, qget_ite_neg, hc, qget, h]
  · cases hc : p.canonical <;> by_cases h : p.orderBy = "" <;>
      unfold SearchVersionByContentParams.toQuery <;>
      simp [qget_append, qget_ite, qget_ite_neg, hc, qget, h]
  · cases hc : p.canonical <;> by_cases h : p.groupID = "" <;>
      unfold SearchVersionByContentParams.toQuery <;>
      simp [qget_append, qget_ite, qget_ite_neg, hc, qget, h]
  · cases hc : p.canonical <;> by_cases h : p.artifactID = "" <;>
      unfold SearchVersionByContentParams.toQuery <;>
      simp [qget_append, qget_ite, qget_ite_neg, hc, qget, h]

end ApicurioSDK

namespace ApicurioSDK

/-- C7: for every SearchArtifactsParams value, ToQuery emits a query key
for a field exactly when the field differs from its type's zero value
(empty string, zero number, empty list), each non-zero field
contributing its own key under a stable name, and the list-valued Labels
field being joined with commas into a single query value. -/
theorem c7_to_query_emits_exactly_nonzero_fields (p : SearchArtifactsParams) :
    qget p.toQuery "name" = (if p.name = "" then none else some p.name) ∧
    qget p.toQuery "offset" = (if p.offset = 0 then none else some (toString p.offset)) ∧
    qget p.toQuery "limit" = (if p.limit = 0 then none else some (toString p.limit)) ∧
    qget p.toQuery "order" = (if p.order = "" then none else some p.order) ∧
    qget p.toQuery "orderby" = (if p.orderBy = "" then none else some p.orderBy) ∧
    qget p.toQuery "labels" =
      (if p.labels = [] then none else some (String.intercalate "," p.labels)) ∧
    qget p.toQuery "description" =
      (if p.description = "" then none else some p.description) ∧
    qget p.toQuery "groupId" = (if p.groupID = "" then none else some p.groupID) ∧
    qget p.toQuery "globalId" =
      (if p.globalID = 0 then none else some (toString p.globalID)) ∧
    qget p.toQuery "contentId" =
      (if p.contentID = 0 then none else some (toString p.contentID)) ∧
    qget p.toQuery "artifactId" =
      (if p.artifactID = "" then none else some p.artifactID) ∧
    qget p.toQuery "artifactType" =
      (if p.artifactType = "" then none else some p.artifactType) :=
  searchArtifactsToQuery_spec p

/-- C8: the query encoding never distinguishes a field that was not set
from a field explicitly set to its type's zero value.  A Go struct field
that was never assigned holds exactly the zero value, so the two cases
denote the same struct value; this theorem shows the encoder emits no
key at all for a zero-valued field, for both cited parameter structs, so
the encoded output carries no trace of an explicitly-set zero. -/
theorem c8_zero_value_indistinguishable (p : SearchArtifactsParams)
    (q : SearchVersionByContentParams) :
    ((p.name = "" → qget p.toQuery "name" = none) ∧
     (p.offset = 0 → qget p.toQuery "offset" = none) ∧
     (p.limit = 0 → qget p.toQuery "limit" = none) ∧
     (p.order = "" → qget p.toQuery "order" = none) ∧
     (p.orderBy = "" → qget p.toQuery "orderby" = none) ∧
     (p.labels = [] → qget p.toQuery "labels" = none) ∧
     (p.description = "" → qget p.toQuery "description" = none) ∧
     (p.groupID = "" → qget p.toQuery "groupId" = none) ∧
     (p.globalID = 0 → qget p.toQuery "globalId" = none) ∧
     (p.contentID = 0 → qget p.toQuery "contentId" = none) ∧
     (p.artifactID = "" → qget p.toQuery "artifactId" = none) ∧
     (p.artifactType = "" → qget p.toQuery "artifactType" = none)) ∧
    ((q.canonical = none → qget q.toQuery "canonical" = none) ∧
     (q.artifactType = "" → qget q.toQuery "artifactType" = none) ∧
     (q.offset = 0 → qget q.toQuery "offset" = none) ∧
     (q.limit = 0 → qget q.toQuery "limit" = none) ∧
     (q.order = "" → qget q.toQuery "order" = none) ∧
     (q.orderBy = "" → qget q.toQuery "orderby" = none) ∧
     (q.groupID = "" → qget q.toQuery "groupId" = none) ∧
     (q.artifactID = "" → qget q.toQuery "artifactId" = none)) := by
  obtain ⟨h1, h2, h3, h4, h5, h6, h7, h8, h9, h10, h11, h12⟩ :=
    searchArtifactsToQuery_spec p
  obtain ⟨g1, g2, g3, g4, g5, g6, g7, g8⟩ :=
    searchVersionByContentToQuery_spec q
  refine ⟨⟨?_, ?_, ?_, ?_, ?_, ?_, ?_, ?_, ?_, ?_, ?_, ?_⟩,
    ⟨?_, ?_, ?_, ?_, ?_, ?_, ?_, ?_⟩⟩
  · intro h; rw [h1, if_pos h]
  · intro h; rw [h2, if_pos h]
  · intro h; rw [h3, if_pos h]
  · intro h; rw [h4, if_pos h]
  · intro h; rw [h5, if_pos h]
  · intro h; rw [h6, if_pos h]
  · intro h; rw [h7, if_pos h]
  · intro h; rw [h8, if_pos h]
  · intro h; rw [h9, if_pos h]
  · intro h; rw [h10, if_pos h]
  · intro h; rw [h11, if_pos h]
  · intro h; rw [h12, if_pos h]
  · intro h; rw [g1, h]
  · intro h; rw [g2, if_pos h]
  · intro h; rw [g3, if_neg (by rw [h]; exact lt_irrefl 0)]
  · intro h; rw [g4, if_neg (by rw [h]; exact lt_irrefl 0)]
  · intro h; rw [g5, if_pos h]
  · intro h; rw [g6, if_pos h]
  · intro h; rw [g7, if_pos h]
  · intro h; rw [g8, if_pos h]

/-- Witness for C8 at the all-defaults parameter structs. -/
theorem c8_zero_value_indistinguishable_witness :
    qget (SearchArtifactsParams.toQuery {}) "name" = none ∧
    qget (SearchArtifactsParams.toQuery {}) "labels" = none ∧
    qget (SearchVersionByContentParams.toQuery {}) "canonical" = none ∧
    qget (SearchVersionByContentParams.toQuery {}) "offset" = none :=
  ⟨(c8_zero_value_indistinguishable {} {}).1.1 rfl,
   (c8_zero_value_indistinguishable {} {}).1.2.2.2.2.2.1 rfl,
   (c8_zero_value_indistinguishable {} {}).2.1 rfl,
   (c8_zero_value_indistinguishable {} {}).2.2.2.1 rfl⟩

/-- C10: ParseArtifactType is a total parser onto the closed nine-value
artifact-type enumeration: on each of the nine supported values it
round-trips to that value with no error, and on every other string
(including the empty string and lowercase spellings) it returns the
empty artifact type together with the unknown-artifact-type error. -/
theorem c10_parse_artifact_type_total (s : String) :
    ParseArtifactType s =
      if s ∈ artifactTypeValues then (s, none)
      else ("", some ErrUnknownArtifactType) := by
  unfold ParseArtifactType
  split_ifs with h1 h2 h3 h4 h5 h6 h7 h8 h9 <;>
    simp_all [artifactTypeValues, Avro, Protobuf, Json, KConnect, OpenAPI,
      AsyncAPI, GraphQL, WSDL, XSD]

end ApicurioSDK

namespace ApicurioSDK

/-- C1: for every response whose status differs from the expected
status, both interpreters attempt to decode the body as a problem-details
envelope; a successful decode is returned as the typed APIError failure
(carrying the server-supplied fields) with no success value, and a decode
failure is returned as the distinct generic unexpected-server-error
outcome wrapping the decode failure, never merged with the typed one. -/
theorem c1_mismatched_status_error_envelope {α : Type} (resp : HttpResponse)
    (expectedStatus : Int) (result : Option (String → Except String α × String))
    (hne : resp.statusCode ≠ expectedStatus) :
    (∀ e, parseAPIError resp.body = .ok e →
      (handleResponse resp expectedStatus result).1 = .error (.apiError e) ∧
      (handleRawResponse resp expectedStatus).1 = .error (.apiError e)) ∧
    (∀ m, parseAPIError resp.body = .error m →
      (handleResponse resp expectedStatus result).1 = .error (.unexpectedServer m) ∧
      (handleRawResponse resp expectedStatus).1 = .error (.unexpectedServer m)) ∧
    (∀ e m, SdkError.apiError e ≠ SdkError.unexpectedServer m) := by
  refine ⟨?_, ?_, ?_⟩
  · intro e he
    constructor <;> simp [handleResponse, handleRawResponse, hne, he]
  · intro m hm
    constructor <;> simp [handleResponse, handleRawResponse, hne, hm]
  · intro e m h
    exact SdkError.noConfusion h

/-- Witness for C1: a 500 response with a non-JSON body yields the
generic unexpected-server error; a 404 response with a problem-details
body yields the typed APIError with the decoded status and title. -/
theorem c1_mismatched_status_error_envelope_witness :
    (handleRawResponse mockResp500NotJson 200).1 =
      .error (.unexpectedServer "failed to parse error response") ∧
    (handleResponse (α := Unit) mockResp404Envelope 200 none).1 =
      .error (.apiError mockAPIError404) :=
  ⟨((c1_mismatched_status_error_envelope (α := Unit) mockResp500NotJson 200 none
      (by decide)).2.1 "failed to parse error response" (by decide)).2,
   ((c1_mismatched_status_error_envelope (α := Unit) mockResp404Envelope 200 none
      (by decide)).1 mockAPIError404 (by decide)).1⟩

/-- C2: for every response whose status equals the expected status, a
requested target type is decoded from the body, a decode failure being
the local failed-to-parse-response-body error distinct from an API
error, and when no target type was requested the interpreter returns
success with no value and no error. -/
theorem c2_matched_status_success_decoding {α : Type} (resp : HttpResponse)
    (expectedStatus : Int) (dec : String → Except String α × String)
    (heq : resp.statusCode = expectedStatus) :
    (∀ v rest, dec resp.body = (.ok v, rest) →
      (handleResponse resp expectedStatus (some dec)).1 = .ok (some v)) ∧
    (∀ m rest, dec resp.body = (.error m, rest) →
      (handleResponse resp expectedStatus (some dec)).1 = .error (.parseBody m)) ∧
    ((handleResponse (α := α) resp expectedStatus none).1 = .ok none) ∧
    (∀ m e, SdkError.parseBody m ≠ SdkError.apiError e) := by
  refine ⟨?_, ?_, ?_, ?_⟩
  · intro v rest hv
    simp [handleResponse, heq, hv]
  · intro m rest hm
    simp [handleResponse, heq, hm]
  · simp [handleResponse, heq]
  · intro m e h
    exact SdkError.noConfusion h

/-- Witness for C2 at a concrete 200 response, with a decoder that
succeeds, a decoder that fails, and no requested target. -/
theorem c2_matched_status_success_decoding_witness :
    (handleResponse { statusCode := 200, headers := [], body := "hello" } 200
      (some fun s => ((Except.ok s : Except String String), ""))).1 =
        .ok (some "hello") ∧
    (handleResponse { statusCode := 200, headers := [], body := "hello" } 200
      (some fun s => ((Except.error "boom" : Except String String), s))).1 =
        .error (.parseBody "boom") ∧
    (handleResponse (α := String)
      { statusCode := 200, headers := [], body := "hello" } 200 none).1 = .ok none :=
  ⟨(c2_matched_status_success_decoding
      { statusCode := 200, headers := [], body := "hello" } 200
      (fun s => ((Except.ok s : Except String String), "")) rfl).1 "hello" "" rfl,
   (c2_matched_status_success_decoding
      { statusCode := 200, headers := [], body := "hello" } 200
      (fun s => ((Except.error "boom" : Except String String), s)) rfl).2.1
      "boom" "hello" rfl,
   (c2_matched_status_success_decoding
      { statusCode := 200, headers := [], body := "hello" } 200
      (fun s => ((Except.ok s : Except String String), "")) rfl).2.2.1⟩

/-- C9 (amended): on every exit path of both interpreters the response
body is closed before the call returns; the body is also fully consumed
on the mismatched-status path and on every handleRawResponse path; when
a target type was requested the interpreter performs no reads beyond
the JSON decoder itself, leaving unread exactly the suffix the decoder
did not consume; and on the empty-success path with no target the body
is closed without being read at all. -/
theorem c9_body_closed_on_every_path {α : Type} (resp : HttpResponse)
    (expectedStatus : Int)
    (result : Option (String → Except String α × String)) :
    ((handleResponse resp expectedStatus result).2.closed = true) ∧
    ((handleRawResponse resp expectedStatus).2.closed = true) ∧
    ((handleRawResponse resp expectedStatus).2.remaining = "") ∧
    (resp.statusCode ≠ expectedStatus →
      (handleResponse resp expectedStatus result).2.remaining = "") ∧
    (resp.statusCode = expectedStatus →
      ∀ dec : String → Except String α × String,
        (handleResponse resp expectedStatus (some dec)).2.remaining =
          (dec resp.body).2) ∧
    (resp.statusCode = expectedStatus →
      (handleResponse (α := α) resp expectedStatus none).2.remaining =
        resp.body) := by
  refine ⟨?_, ?_, ?_, ?_, ?_, ?_⟩
  · by_cases h : resp.statusCode = expectedStatus
    · cases result with
      | none => simp [handleResponse, h]
      | some dec =>
        rcases hd : dec resp.body with ⟨o, rest⟩
        cases o <;> simp [handleResponse, h, hd]
    · cases hp : parseAPIError resp.body <;> simp [handleResponse, h, hp]
  · by_cases h : resp.statusCode = expectedStatus
    · simp [handleRawResponse, h]
    · cases hp : parseAPIError resp.body <;> simp [handleRawResponse, h, hp]
  · by_cases h : resp.statusCode = expectedStatus
    · simp [handleRawResponse, h]
    · cases hp : parseAPIError resp.body <;> simp [handleRawResponse, h, hp]
  · intro h
    cases hp : parseAPIError resp.body <;> simp [handleResponse, h, hp]
  · intro h dec
    rcases hd : dec resp.body with ⟨o, rest⟩
    cases o <;> simp [handleResponse, h, hd]
  · intro h
    simp [handleResponse, h]

/-- Witness for C9 at concrete responses: the error path is drained and
closed; the decode path leaves exactly the decoder's leftover; the
nil-target path leaves the whole body unread. -/
theorem c9_body_closed_on_every_path_witness :
    (handleResponse (α := Unit) mockResp500NotJson 200 none).2.closed = true ∧
    (handleResponse (α := Unit) mockResp500NotJson 200 none).2.remaining = "" ∧
    (handleResponse { statusCode := 200, headers := [], body := "hello" } 200
      (some fun s => ((Except.ok s : Except String String), ""))).2.remaining
      = "" ∧
    (handleResponse (α := Unit)
      { statusCode := 200, headers := [], body := "unread" } 200
      none).2.remaining = "unread" :=
  ⟨(c9_body_closed_on_every_path (α := Unit) mockResp500NotJson 200 none).1,
   (c9_body_closed_on_every_path (α := Unit) mockResp500NotJson 200 none).2.2.2.1
     (by decide),
   (c9_body_closed_on_every_path
      { statusCode := 200, headers := [], body := "hello" } 200
      (some fun s => ((Except.ok s : Except String String), ""))).2.2.2.2.1
     rfl (fun s => ((Except.ok s : Except String String), "")),
   (c9_body_closed_on_every_path (α := Unit)
      { statusCode := 200, headers := [], body := "unread" } 200
      none).2.2.2.2.2 rfl⟩

/-- Counterexample for C9 as stated: on the empty-success exit path (a
204 response interpreted with no target type) the body is closed but not
consumed — the unread remainder is the whole non-empty body, so the body
is not fully consumed on every exit path. -/
theorem c9_counterexample_body_not_consumed :
    (handleResponse (α := Unit)
      { statusCode := 204, headers := [], body := "leftover" } 204 none).2 =
      { remaining := "leftover", closed := true } ∧
    ("leftover" : String) ≠ "" := by
  exact ⟨by decide, by decide⟩

end ApicurioSDK

namespace ApicurioSDK

/-- C3 (amended): every string of 1 to 256 characters drawn from the
class of letters, digits, dot, underscore, hyphen and plus passes
version-expression validation; but because the version pattern carries
no anchors, validation succeeds exactly when the string contains at
least one character of the class, so a string containing characters
outside the class (such as a space) still validates whenever any allowed
character is present, and only strings with no allowed character at all
fail with the invalid-input error. -/
theorem c3_version_validation (s : String) :
    (validateInput s regexVersion "Version Expression" = .ok () ↔
      s.data.any isVersionChar = true) ∧
    (validateInput s regexVersion "Version Expression" =
        .error (.invalidInput "Version Expression" s) ↔
      ¬ s.data.any isVersionChar = true) ∧
    (1 ≤ s.length → s.length ≤ 256 → (∀ c ∈ s.data, isVersionChar c = true) →
      validateInput s regexVersion "Version Expression" = .ok ()) := by
  refine ⟨?_, ?_, ?_⟩
  · by_cases h : s.data.any isVersionChar = true <;>
      simp [validateInput, regexVersion, h]
  · by_cases h : s.data.any isVersionChar = true <;>
      simp [validateInput, regexVersion, h]
  · intro h1 _h2 h3
    have hpos : 0 < s.data.length := h1
    have hne : s.data ≠ [] := List.length_pos.mp hpos
    obtain ⟨c, hc⟩ := List.exists_mem_of_ne_nil s.data hne
    have hany : s.data.any isVersionChar = true :=
      List.any_eq_true.mpr ⟨c, hc, h3 c hc⟩
    simp [validateInput, regexVersion, hany]

/-- Witness for C3 at a well-formed version expression. -/
theorem c3_version_validation_witness :
    validateInput "v1.0" regexVersion "Version Expression" = .ok () :=
  (c3_version_validation "v1.0").2.2 (by decide) (by decide) (by decide)

/-- Counterexample for C3 as stated: the string built of the characters
a, space, b contains a character outside the class (the space), yet
version-expression validation succeeds, because the unanchored pattern
matches the single character a. -/
theorem c3_counterexample_space_validates :
    (¬ ∀ c ∈ "a b".data, isVersionChar c = true) ∧
    validateInput "a b" regexVersion "Version Expression" = .ok () := by
  exact ⟨by decide, by decide⟩

/-- C6 (amended): every identifier of length 1 to 512 that contains no
newline passes identifier validation; the empty string, identifiers
longer than 512 characters (and identifiers containing a newline, which
the anchored dot pattern rejects) fail with the invalid-input error, and
the operation then returns before any request is built or sent. -/
theorem c6_identifier_validation (s : String) (c : Client)
    (transport : HttpRequest → HttpResponse) (artifactID versionExpr : String) :
    (1 ≤ s.length → s.length ≤ 512 → (∀ ch ∈ s.data, ch ≠ '\n') →
      validateInput s regexGroupIDArtifactID "Group ID" = .ok ()) ∧
    (validateInput "" regexGroupIDArtifactID "Group ID" =
      .error (.invalidInput "Group ID" "")) ∧
    (512 < s.length →
      validateInput s regexGroupIDArtifactID "Group ID" =
        .error (.invalidInput "Group ID" s)) ∧
    ('\n' ∈ s.data →
      validateInput s regexGroupIDArtifactID "Group ID" =
        .error (.invalidInput "Group ID" s)) ∧
    (validateInput s regexGroupIDArtifactID "Group ID" =
        .error (.invalidInput "Group ID" s) →
      DeleteArtifactVersion c transport s artifactID versionExpr =
        (.error (.invalidInput "Group ID" s), [])) := by
  refine ⟨?_, ?_, ?_, ?_, ?_⟩
  · intro h1 h2 h3
    have h1' : 1 ≤ s.data.length := h1
    have h2' : s.data.length ≤ 512 := h2
    simp [validateInput, regexGroupIDArtifactID, h1', h2', List.all_eq_true]
    exact ⟨h1, h2, fun hmem => h3 _ hmem rfl⟩
  · decide
  · intro h
    have hb : ¬ s.data.length ≤ 512 := by
      have h' : 512 < s.data.length := h
      omega
    simp [validateInput, regexGroupIDArtifactID, hb]
    intro _ hc
    exact absurd hc hb
  · intro hmem
    simp [validateInput, regexGroupIDArtifactID]
    intro _ _
    exact hmem
  · intro h
    simp [DeleteArtifactVersion, h]

set_option maxRecDepth 4000 in
/-- Witness for C6: a well-formed identifier validates; a 513-character
identifier fails; an empty group identifier is rejected before any
request reaches the transport. -/
theorem c6_identifier_validation_witness :
    validateInput "my-group" regexGroupIDArtifactID "Group ID" = .ok () ∧
    validateInput longIdentifier regexGroupIDArtifactID "Group ID" =
      .error (.invalidInput "Group ID" longIdentifier) ∧
    validateInput "line1\nline2" regexGroupIDArtifactID "Group ID" =
      .error (.invalidInput "Group ID" "line1\nline2") ∧
    DeleteArtifactVersion mockClient (fun _ => mockResp404Envelope)
      "" "artifact-1" "1.0" = (.error (.invalidInput "Group ID" ""), []) :=
  ⟨(c6_identifier_validation "my-group" mockClient (fun _ => mockResp404Envelope)
      "artifact-1" "1.0").1 (by decide) (by decide) (by decide),
   (c6_identifier_validation longIdentifier mockClient
      (fun _ => mockResp404Envelope) "artifact-1" "1.0").2.2.1 (by decide),
   (c6_identifier_validation "line1\nline2" mockClient
      (fun _ => mockResp404Envelope) "artifact-1" "1.0").2.2.2.1 (by decide),
   (c6_identifier_validation "" mockClient (fun _ => mockResp404Envelope)
      "artifact-1" "1.0").2.2.2.2
     ((c6_identifier_validation "" mockClient (fun _ => mockResp404Envelope)
        "artifact-1" "1.0").2.1)⟩

/-- Counterexample for C6 as stated: an identifier of length 3 that
contains a newline is rejected by identifier validation, although its
length lies between 1 and 512. -/
theorem c6_counterexample_newline_rejected :
    ("a\nb").length = 3 ∧
    validateInput "a\nb" regexGroupIDArtifactID "Group ID" =
      .error (.invalidInput "Group ID" "a\nb") := by
  exact ⟨by decide, by decide⟩

end ApicurioSDK

namespace ApicurioSDK

/-- Setting the Content-Type header leaves the Authorization header
unchanged. -/
theorem headerGet_authorization_headerSet_ct (hs : List (String × String))
    (v : String) :
    headerGet (headerSet hs "Content-Type" v) "Authorization" =
      headerGet hs "Authorization" :=
  headerGet_headerSet_ne hs "Content-Type" v "Authorization" (by decide)

/-- C4 (amended): executeRequest sends a raw string or byte-slice body
verbatim and attaches the wildcard content type to the built request,
JSON-encodes any other body (including nil, rendered as null with no
content-type header) with the JSON content type, and turns a JSON
encoding failure into an immediate local error with no request built;
Client.Do then attaches the Authorization header exactly when the static
auth header value is non-empty, but overwrites the Content-Type header
with application/json unconditionally before dispatching, so the
computed wildcard content type does not survive to the wire. -/
theorem c4_request_building_and_dispatch (method url : String)
    (body : RequestBody) (c : Client) (req : HttpRequest) :
    (∀ s, body = .str s → executeRequest method url body =
      .ok { method := method, url := url,
            headers := [("Content-Type", ContentTypeAll)], body := s }) ∧
    (∀ b, body = .bytes b → executeRequest method url body =
      .ok { method := method, url := url,
            headers := [("Content-Type", ContentTypeAll)], body := b }) ∧
    (∀ m, body = .jsonOk m → executeRequest method url body =
      .ok { method := method, url := url,
            headers := [("Content-Type", ContentTypeJSON)], body := m }) ∧
    (executeRequest method url .nil =
      .ok { method := method, url := url, headers := [], body := "null" }) ∧
    (∀ msg, body = .jsonFail msg →
      executeRequest method url body = .error (.marshalBody msg)) ∧
    (headerGet (clientDispatch c req).headers "Content-Type" =
      "application/json") ∧
    (c.authHeader ≠ "" →
      headerGet (clientDispatch c req).headers "Authorization" = c.authHeader) ∧
    (c.authHeader = "" →
      headerGet (clientDispatch c req).headers "Authorization" =
        headerGet req.headers "Authorization") := by
  refine ⟨?_, ?_, ?_, ?_, ?_, ?_, ?_, ?_⟩
  · intro s hs
    subst hs
    simp [executeRequest, RequestBody.isNilBody, headerSet]
  · intro b hb
    subst hb
    simp [executeRequest, RequestBody.isNilBody, headerSet]
  · intro m hm
    subst hm
    simp [executeRequest, RequestBody.isNilBody, headerSet]
  · simp [executeRequest, RequestBody.isNilBody]
  · intro msg hmsg
    subst hmsg
    simp [executeRequest]
  · by_cases ha : c.authHeader = "" <;>
      simp [clientDispatch, ha, headerGet_headerSet_same]
  · intro ha
    simp [clientDispatch, ha, headerGet_authorization_headerSet_ct,
      headerGet_headerSet_same]
  · intro ha
    simp [clientDispatch, ha, headerGet_authorization_headerSet_ct]

/-- Witness for C4: a raw body builds a wildcard-content-type request, a
failing marshal is an immediate local error, and a configured auth
header is attached on dispatch. -/
theorem c4_request_building_and_dispatch_witness :
    executeRequest "POST" "http://reg/x" (.str "raw-schema") =
      .ok { method := "POST", url := "http://reg/x",
            headers := [("Content-Type", ContentTypeAll)], body := "raw-schema" } ∧
    executeRequest "POST" "http://reg/x" (.jsonFail "unsupported type") =
      .error (.marshalBody "unsupported type") ∧
    headerGet (clientDispatch mockClientWithAuth
      { method := "GET", url := "u", headers := [], body := "" }).headers
      "Authorization" = "Bearer token-123" :=
  ⟨(c4_request_building_and_dispatch "POST" "http://reg/x" (.str "raw-schema")
      mockClient { method := "GET", url := "u", headers := [], body := "" }).1
      "raw-schema" rfl,
   (c4_request_building_and_dispatch "POST" "http://reg/x"
      (.jsonFail "unsupported type")
      mockClient { method := "GET", url := "u", headers := [], body := "" }).2.2.2.2.1
      "unsupported type" rfl,
   (c4_request_building_and_dispatch "POST" "http://reg/x" (.str "raw-schema")
      mockClientWithAuth
      { method := "GET", url := "u", headers := [], body := "" }).2.2.2.2.2.2.1
      (by decide)⟩

/-- Counterexample for C4 as stated: a raw string body is built with the
wildcard content type, but the request Client.Do dispatches carries
Content-Type application/json, not the computed wildcard value. -/
theorem c4_counterexample_content_type_overwritten :
    executeRequest "POST" "http://reg/x" (.str "raw-schema") =
      .ok { method := "POST", url := "http://reg/x",
            headers := [("Content-Type", "*/*")], body := "raw-schema" } ∧
    headerGet (clientDispatch { baseURL := "http://reg" }
      { method := "POST", url := "http://reg/x",
        headers := [("Content-Type", "*/*")], body := "raw-schema" }).headers
      "Content-Type" = "application/json" ∧
    ("application/json" : String) ≠ "*/*" := by
  exact ⟨by decide, by decide, by decide⟩

end ApicurioSDK

namespace ApicurioSDK

/-- C5: for a content-fetching operation whose transport returns a
success (200) response, the response must carry an
X-Registry-ArtifactType header parsing into the closed artifact-type
enumeration: if it does, the operation returns the raw textual body
paired with that artifact type; if the header is absent or unrecognized,
the operation fails with the local invalid-artifact-type error,
returning no value, an outcome distinct from typed API errors, from the
generic unexpected-server error and from body decode errors. -/
theorem c5_content_fetch_header_contract (c : Client)
    (transport : HttpRequest → HttpResponse)
    (groupID artifactID versionExpr : String) (resp : HttpResponse)
    (hg : regexGroupIDArtifactID groupID = true)
    (ha : regexGroupIDArtifactID artifactID = true)
    (hv : regexVersion versionExpr = true)
    (htr : transport (clientDispatch c
      { method := "GET",
        url := c.baseURL ++ "/groups/" ++ groupID ++ "/artifacts/" ++ artifactID
          ++ "/versions/" ++ versionExpr ++ "/content",
        headers := [], body := "null" }) = resp)
    (hstatus : resp.statusCode = 200) :
    (∀ t, ParseArtifactType (headerGet resp.headers "X-Registry-ArtifactType") =
        (t, none) →
      GetArtifactVersionContent c transport groupID artifactID versionExpr none =
        .ok { content := resp.body, artifactType := t }) ∧
    (∀ t err,
      ParseArtifactType (headerGet resp.headers "X-Registry-ArtifactType") =
        (t, some err) →
      GetArtifactVersionContent c transport groupID artifactID versionExpr none =
        .error (.invalidArtifactTypeHeader
          (headerGet resp.headers "X-Registry-ArtifactType"))) ∧
    (∀ hdr e m m2,
      SdkError.invalidArtifactTypeHeader hdr ≠ SdkError.apiError e ∧
      SdkError.invalidArtifactTypeHeader hdr ≠ SdkError.unexpectedServer m ∧
      SdkError.invalidArtifactTypeHeader hdr ≠ SdkError.parseBody m2) := by
  refine ⟨?_, ?_, ?_⟩
  · intro t ht
    simp [GetArtifactVersionContent, validateInput, hg, ha, hv, executeRequest,
      RequestBody.isNilBody, clientDo, htr, handleRawResponse, hstatus,
      parseArtifactTypeHeader, ht]
  · intro t err ht
    simp [GetArtifactVersionContent, validateInput, hg, ha, hv, executeRequest,
      RequestBody.isNilBody, clientDo, htr, handleRawResponse, hstatus,
      parseArtifactTypeHeader, ht]
  · intro hdr e m m2
    exact ⟨fun h => SdkError.noConfusion h, fun h => SdkError.noConfusion h,
      fun h => SdkError.noConfusion h⟩

/-- Witness for C5: against a mock transport answering 200 with header
value JSON the operation returns the body paired with type JSON; with
header value BOGUS it fails with the local parse error. -/
theorem c5_content_fetch_header_contract_witness :
    GetArtifactVersionContent mockClient (fun _ => mockResp200Json)
      "my-group" "artifact-1" "1.0" none =
      .ok { content := mockResp200Json.body, artifactType := "JSON" } ∧
    GetArtifactVersionContent mockClient (fun _ => mockResp200Bogus)
      "my-group" "artifact-1" "1.0" none =
      .error (.invalidArtifactTypeHeader "BOGUS") :=
  ⟨(c5_content_fetch_header_contract mockClient (fun _ => mockResp200Json)
      "my-group" "artifact-1" "1.0" mockResp200Json
      (by decide) (by decide) (by decide) rfl (by decide)).1
      "JSON" (by decide),
   (c5_content_fetch_header_contract mockClient (fun _ => mockResp200Bogus)
      "my-group" "artifact-1" "1.0" mockResp200Bogus
      (by decide) (by decide) (by decide) rfl (by decide)).2.1
      "" ErrUnknownArtifactType (by decide)⟩

end ApicurioSDK
